import Mathlib

/-!
Verification of the parquet-converter core against its specification.

The development shallowly embeds the type-inference algorithm of
parser.py (infer_dtypes) and the conversion pipeline of converter.py
(convert_file and its helpers) together with the ConversionStats record
of stats.py.  Calls into the pandas and polars libraries are modelled
explicitly: elementwise datetime parsing is an oracle parameter,
pandas.to_numeric is modelled on plain decimal literals, and the file
system effects of the polars pipeline are abstracted into outcome
records consumed by the embedded control flow.
-/

namespace PC

/-- Final inferred classification of one column, mirroring the pandas
dtypes infer_dtypes can leave behind: datetime64, Int64, float64,
boolean and object/string. -/
inductive InferredType
  | dateTime
  | integer
  | float
  | boolean
  | string
  deriving DecidableEq, Repr

/-- One stored value of a column after inference. -/
inductive Cell
  | null
  | str (s : String)
  | dt (t : Nat)
  | int (z : Int)
  | rat (q : Rat)
  | bool (b : Bool)
  deriving DecidableEq, Repr

/-- Boolean token set of the boolean attempt (parser.py line 246). -/
def boolTokens : List String := ["true", "false", "1", "0"]

/-- Characterwise lowercase conversion, the model of Python str.lower
on the ASCII strings this pipeline compares. -/
def strLower (s : String) : String := String.mk (s.data.map Char.toLower)

/-- Character-level suffix test, the model of the glob pattern used by
convert_directory to discover files by extension. -/
def strEndsWith (s : String) (suf : String) : Bool := suf.data.isSuffixOf s.data

/-- Digit characters folded into the natural number they denote, most
significant digit first. -/
def natOfDigitChars (cs : List Char) : Nat :=
  cs.foldl (fun a c => a * 10 + (c.toNat - 48)) 0

/-- Smallest int64 value, the lower bound of the pandas integer path. -/
def int64Min : Int := -9223372036854775808

/-- Largest int64 value, the bound of the astype("int64") comparison
and of the nullable Int64 target dtype. -/
def int64Max : Int := 9223372036854775807

/-- Largest uint64 value: pandas parses integer literals above
int64Max up to this bound through its uint64 path. -/
def uint64Max : Int := 18446744073709551615

/-- Two's-complement wrap onto int64: the effect of astype("int64") on
the uint64 values pandas uses for integers above int64Max, making the
equality check of parser.py line 235 fail for them. -/
def int64Wrap (z : Int) : Int :=
  (z + 9223372036854775808) % 18446744073709551616 - 9223372036854775808

/-- Bounded integer path of pandas.to_numeric: an integer literal is
held exactly (as int64 or uint64) only inside the envelope
[int64Min, uint64Max]; outside it this model coerces to null.  In
pandas such a literal becomes NaN or an imprecise float64 - in either
case never an exact integer - and no claim depends on the String
versus Float classification of that out-of-envelope region. -/
def int64Envelope (z : Int) : Option Rat :=
  if int64Min ≤ z ∧ z ≤ uint64Max then some ((z : Int) : Rat) else none

/-- Signed value of an unsigned digit run. -/
def signedVal : Bool → Nat → Int
  | true, n => -(n : Int)
  | false, n => (n : Int)

/-- Whole and fractional character runs combined into the number a
decimal literal denotes: a dot-free literal takes the bounded 64-bit
integer path, a literal with a decimal point takes the float64 path
(whose rounding this model abstracts; no claim reads values off the
Float path). -/
def toNumericSplit (neg : Bool) (w : List Char) (r : List Char) : Option Rat :=
  match r with
  | [] =>
    if !w.isEmpty && w.all Char.isDigit then
      int64Envelope (signedVal neg (natOfDigitChars w))
    else none
  | _ :: f =>
    if (!w.isEmpty || !f.isEmpty) && w.all Char.isDigit && f.all Char.isDigit then
      some (if neg then
        -((natOfDigitChars w : Rat) + (natOfDigitChars f : Rat) / (10 : Rat) ^ f.length)
      else
        (natOfDigitChars w : Rat) + (natOfDigitChars f : Rat) / (10 : Rat) ^ f.length)
    else none

/-- Unsigned part of the decimal-literal model of pandas.to_numeric:
digits with at most one decimal point, combined under the sign. -/
def toNumericBody (neg : Bool) (body : List Char) : Option Rat :=
  toNumericSplit neg (body.takeWhile (fun c => c ≠ '.')) (body.dropWhile (fun c => c ≠ '.'))

/-- Character-level case split of the decimal-literal model: an
optional leading minus sign, then an unsigned decimal body. -/
def toNumericChars : List Char → Option Rat
  | [] => none
  | c :: t =>
    if c = '-' then toNumericBody true t
    else toNumericBody false (c :: t)

/-- Model of the external pandas.to_numeric call (parser.py line 229),
restricted to plain decimal literals with an optional leading minus
sign; anything else coerces to null.  Integer literals are exact only
within the 64-bit envelope (int64Envelope); fractional literals take
the float64 path. -/
def toNumericModel (s : String) : Option Rat :=
  toNumericChars s.data

/-- Truncation toward zero used by astype("int64") in the integer check
(parser.py line 235). -/
def ratTrunc (q : Rat) : Int := q.num / (q.den : Int)

/-- Oracle for the external pandas datetime parsing calls inside
infer_dtypes: gRaises models pd.to_datetime raising ValueError or
TypeError on the whole column, gparse models elementwise generic
parsing under errors="coerce" (none is NaT), and fparse models
elementwise parsing against an explicit format string. -/
structure DtOracle where
  gRaises : Bool
  gparse : String → Option Nat
  fparse : String → String → Option Nat

/-- Format loop of infer_dtypes (parser.py lines 211-221): the first
format whose coerced parse is not all-null is assigned; a format that
parses nothing is skipped and the column is left as it was. -/
def formatLoop (o : DtOracle) (formats : List String) (col : List (Option String)) :
    List (Option Nat) ⊕ List (Option String) :=
  match formats.find? (fun fmt => !((col.map (fun v => v.bind (o.fparse fmt))).all Option.isNone)) with
  | some fmt => Sum.inl (col.map (fun v => v.bind (o.fparse fmt)))
  | none => Sum.inr col

/-- Datetime stage of infer_dtypes (parser.py lines 195-224) on one
column of raw optional strings.  The generic attempt overwrites the
column with the coerced result; acceptance requires only that not all
results are null.  When all results are null the revert at line 206
restores the object dtype but the coerced null values remain, so the
format loop then runs over an all-null column.  When pd.to_datetime
raises, the except branch leaves the original values in place.  The
left summand carries accepted datetime values, the right summand the
column contents handed to the numeric stage. -/
def dtStage (o : DtOracle) (formats : List String) (vals : List (Option String)) :
    List (Option Nat) ⊕ List (Option String) :=
  if formats.isEmpty then Sum.inr vals
  else if o.gRaises then formatLoop o formats vals
  else if (vals.map (fun v => v.bind o.gparse)).all Option.isNone then
    formatLoop o formats (vals.map (fun _ => none))
  else Sum.inl (vals.map (fun v => v.bind o.gparse))

/-- Decision step of the numeric stage, taking the coerced numeric
series next to the column it came from: the attempt is accepted when
no originally-non-null entry coerced to null, and is Int64 exactly
when the 64-bit-wrapping astype("int64") truncation changes no value
(so uint64-range values above int64Max fail the check and classify
Float, as in numpy).  On the accepted Int64 branch every value passes
the wrap check, hence lies in int64 range and is stored exactly. -/
def numericDecide (col : List (Option String)) (numeric : List (Option Rat)) :
    Option (InferredType × List Cell) :=
  if (col.zip numeric).all (fun p => p.1.isNone || p.2.isSome) then
    if (numeric.filterMap id).all (fun q => decide ((int64Wrap (ratTrunc q) : Rat) = q)) then
      some (InferredType.integer, numeric.map (fun oq =>
        match oq with
        | some q => Cell.int (int64Wrap (ratTrunc q))
        | none => Cell.null))
    else
      some (InferredType.float, numeric.map (fun oq =>
        match oq with
        | some q => Cell.rat q
        | none => Cell.null))
  else none

/-- Numeric stage of infer_dtypes (parser.py lines 226-241).  none
means the numeric attempt was rejected and the column falls through
unchanged; otherwise the column is retyped Int64 or float64. -/
def numericStage (col : List (Option String)) : Option (InferredType × List Cell) :=
  numericDecide col (col.map (fun v => v.bind toNumericModel))

/-- Boolean stage of infer_dtypes (parser.py lines 243-257). -/
def boolStage (col : List (Option String)) : Option (InferredType × List Cell) :=
  if (col.filterMap id).all (fun s => boolTokens.contains (strLower s)) then
    some (InferredType.boolean, col.map (fun v =>
      match v with
      | some s => Cell.bool ((strLower s == "true") || (strLower s == "1"))
      | none => Cell.null))
  else none

/-- Raw optional string rendered as the object-dtype cell it occupies. -/
def cellOfRaw (v : Option String) : Cell :=
  match v with
  | some s => Cell.str s
  | none => Cell.null

/-- One iteration of the infer_dtypes column loop (parser.py lines
189-267): a column with an explicit configured dtype is skipped
untouched; otherwise the datetime, numeric and boolean attempts run in
that order and an unconverted object column is the String fallback. -/
def inferDtypesColumn (o : DtOracle) (hasOverride : Bool) (formats : List String)
    (vals : List (Option String)) : InferredType × List Cell :=
  if hasOverride then (InferredType.string, vals.map cellOfRaw)
  else
    match dtStage o formats vals with
    | Sum.inl dts =>
      (InferredType.dateTime, dts.map (fun t =>
        match t with
        | some d => Cell.dt d
        | none => Cell.null))
    | Sum.inr col =>
      match numericStage col with
      | some r => r
      | none =>
        match boolStage col with
        | some r => r
        | none => (InferredType.string, col.map cellOfRaw)

/-- Null-token substitution performed by pandas read_csv through the
na_values option (parser.py lines 88-100): configured tokens become
null before infer_dtypes ever sees the column. -/
def applyNaValues (naValues : List String) (raw : List String) : List (Option String) :=
  raw.map (fun s => if naValues.contains s then none else some s)

/-- Calendar date packed into the abstract datetime value. -/
def encodeDate (y m d : Nat) : Nat := y * 10000 + m * 100 + d

/-- ISO yyyy-mm-dd character pattern shared by the concrete parser
models below. -/
def parseIsoChars (cs : List Char) : Option Nat :=
  match cs with
  | [y1, y2, y3, y4, '-', m1, m2, '-', d1, d2] =>
    let mv := natOfDigitChars [m1, m2]
    let dv := natOfDigitChars [d1, d2]
    if ([y1, y2, y3, y4, m1, m2, d1, d2]).all Char.isDigit
        && decide (1 ≤ mv) && decide (mv ≤ 12) && decide (1 ≤ dv) && decide (dv ≤ 31) then
      some (encodeDate (natOfDigitChars [y1, y2, y3, y4]) mv dv)
    else none
  | _ => none

/-- Model of generic pd.to_datetime parsing used to instantiate the
oracle in concrete evaluations: it accepts extended ISO dates
yyyy-mm-dd and bare four-digit years (pandas reads the string 2023 as
2023-01-01) and coerces everything else to NaT. -/
def pdGenericParse (s : String) : Option Nat :=
  match s.data with
  | [y1, y2, y3, y4] =>
    if ([y1, y2, y3, y4]).all Char.isDigit then
      some (encodeDate (natOfDigitChars [y1, y2, y3, y4]) 1 1)
    else none
  | cs => parseIsoChars cs

/-- Model of pd.to_datetime with an explicit format string: only the
default %Y-%m-%d format is given a meaning here. -/
def pdFormatParse (fmt : String) (s : String) : Option Nat :=
  if fmt = "%Y-%m-%d" then parseIsoChars s.data else none

/-- Concrete oracle built from the parser models above. -/
def pdOracle : DtOracle :=
  { gRaises := false, gparse := pdGenericParse, fparse := pdFormatParse }

/-- Oracle whose parsers accept nothing; used to instantiate witnesses. -/
def nullOracle : DtOracle :=
  { gRaises := false, gparse := fun _ => none, fparse := fun _ _ => none }

/-- Character-level form of the integer-literal pattern. -/
def matchesIntLitChars : List Char → Bool
  | [] => false
  | c :: t =>
    if c = '-' then !t.isEmpty && t.all Char.isDigit
    else (c :: t).all Char.isDigit

/-- The regular expression from the spec for integer literals, an
optional minus sign followed by one or more digits. -/
def matchesIntLit (s : String) : Bool :=
  matchesIntLitChars s.data

/-- Character-level value of an integer literal. -/
def intLitValChars : List Char → Int
  | [] => 0
  | c :: t =>
    if c = '-' then -(natOfDigitChars t : Int)
    else (natOfDigitChars (c :: t) : Int)

/-- Integer denoted by a string matched by matchesIntLit. -/
def intLitVal (s : String) : Int :=
  intLitValChars s.data

/-- Decimal digit characters of a natural number, most significant
first, as produced by Python str. -/
def natDecimalChars (n : Nat) : List Char :=
  if n = 0 then ['0'] else ((Nat.digits 10 n).map Nat.digitChar).reverse

/-- Decimal rendering of an integer, matching Python str on int64
values. -/
def intRender (z : Int) : String :=
  match z with
  | Int.ofNat n => String.mk (natDecimalChars n)
  | Int.negSucc m => String.mk ('-' :: natDecimalChars (m + 1))

/-- The cell an integer-literal raw value becomes after the numeric
stage classifies the column Int64. -/
def intCellOf (v : Option String) : Cell :=
  match v with
  | some s => Cell.int (intLitVal s)
  | none => Cell.null

/-- Per-column profiling entry: dtype with optional unique and null
counts, as stored in column_stats. -/
structure ColumnInfo where
  dtype : String
  unique_values : Option Nat
  null_count : Option Nat
  deriving DecidableEq, Repr

/-- The ConversionStats dataclass of stats.py.  The column_stats dict
is modelled as an insertion-ordered association list. -/
structure ConversionStats where
  input_file : String
  output_file : String
  rows_processed : Nat
  rows_converted : Nat
  errors : List String
  warnings : List String
  column_stats : List (String × ColumnInfo)
  deriving DecidableEq, Repr

/-- ConversionStats.success (stats.py line 103). -/
def ConversionStats.success (s : ConversionStats) : Bool := s.errors.isEmpty

/-- ConversionStats.error_count (stats.py line 121). -/
def ConversionStats.error_count (s : ConversionStats) : Nat := s.errors.length

/-- ConversionStats.warning_count (stats.py line 139). -/
def ConversionStats.warning_count (s : ConversionStats) : Nat := s.warnings.length

/-- Python dict produced by ConversionStats.to_dict.  The optional
fields model the keys that from_dict reads back with dict.get
defaults; the derived success, error_count and warning_count keys are
plain fields that from_dict never reads. -/
structure StatsDict where
  input_file : String
  output_file : String
  rows_processed : Nat
  rows_converted : Nat
  success : Bool
  error_count : Nat
  warning_count : Nat
  errors : Option (List String)
  warnings : Option (List String)
  column_stats : Option (List (String × ColumnInfo))
  deriving DecidableEq, Repr

/-- ConversionStats.to_dict (stats.py lines 202-228). -/
def ConversionStats.to_dict (s : ConversionStats) : StatsDict :=
  { input_file := s.input_file
    output_file := s.output_file
    rows_processed := s.rows_processed
    rows_converted := s.rows_converted
    success := s.success
    error_count := s.error_count
    warning_count := s.warning_count
    errors := some s.errors
    warnings := some s.warnings
    column_stats := some s.column_stats }

/-- ConversionStats.from_dict (stats.py lines 230-264). -/
def ConversionStats.from_dict (d : StatsDict) : ConversionStats :=
  { input_file := d.input_file
    output_file := d.output_file
    rows_processed := d.rows_processed
    rows_converted := d.rows_converted
    errors := d.errors.getD []
    warnings := d.warnings.getD []
    column_stats := d.column_stats.getD [] }

/-- Input path as the converter sees it: str(path), Path.name and
Path.suffix. -/
structure PathModel where
  full : String
  name : String
  suffix : String

/-- Per-format parsing options resolved from the csv and txt config
sections. -/
structure FileOptions where
  delimiter : String
  encoding : String
  naValues : List String
  deriving DecidableEq, Repr

/-- Runtime configuration after convert_file merges its defaults
(converter.py lines 74-82). -/
structure RuntimeConfig where
  engine : String
  profiling_column_limit : Nat
  csv : FileOptions
  txt : FileOptions

/-- Sampled polars schema: ordered column name and dtype pairs. -/
abbrev Schema := List (String × String)

/-- Output parquet column as seen by the profiler: name, dtype and the
n_unique and null_count aggregates polars computes over it. -/
structure OutColumn where
  name : String
  dtype : String
  nUnique : Nat
  nullCount : Nat

/-- Outcomes of the external polars calls made by the streaming
pipeline for one file: the sample read, the scan-and-sink run as a
function of the schema hint passed to it, and the columns of the
written parquet file. -/
structure PolarsOracle where
  sampleRead : Except String Schema
  scanSink : Option Schema → Except String Nat
  outColumns : List OutColumn

/-- DataFrame produced by parse_file in the legacy pipeline, reduced
to what _convert_with_pandas consumes: its length and the per-column
stats computed from it. -/
structure PandasFrame where
  nrows : Nat
  columnStats : List (String × ColumnInfo)

/-- Outcomes of the external pandas calls made by the legacy pipeline:
the read-and-infer step and the to_parquet write. -/
structure PandasOracle where
  readFrame : Except String PandasFrame
  writeOk : Except String Unit

/-- _resolve_file_options (converter.py lines 345-373). -/
def resolveFileOptions (p : PathModel) (cfg : RuntimeConfig) : Except String FileOptions :=
  if strLower p.suffix = ".csv" then Except.ok cfg.csv
  else if strLower p.suffix = ".txt" then Except.ok cfg.txt
  else Except.error ("Unsupported file type: " ++ strLower p.suffix)

/-- _analyze_sample_with_polars (converter.py lines 438-492): any
exception while sampling is swallowed, logged as a warning only, and
None is returned. -/
def analyzeSampleWithPolars (sampleRead : Except String Schema) : Option Schema :=
  match sampleRead with
  | Except.ok schema => some schema
  | Except.error _ => none

/-- _stream_polars_conversion (converter.py lines 495-574) with the
elapsed-seconds component dropped: any exception during scan, sink or
row count yields success false with zero rows. -/
def streamPolarsConversion (scanSink : Except String Nat) : Bool × Nat :=
  match scanSink with
  | Except.ok n => (true, n)
  | Except.error _ => (false, 0)

/-- _collect_polars_column_stats (converter.py lines 577-638): the
first column_limit schema columns get computed stats, every column
beyond the limit gets null placeholders, and the dict keeps schema
order. -/
def collectPolarsColumnStats (cols : List OutColumn) (columnLimit : Nat) :
    List (String × ColumnInfo) :=
  (cols.take columnLimit).map (fun c =>
    (c.name, ColumnInfo.mk c.dtype (some c.nUnique) (some c.nullCount)))
    ++ (cols.drop columnLimit).map (fun c => (c.name, ColumnInfo.mk c.dtype none none))

/-- _convert_with_polars (converter.py lines 160-260). -/
def convertWithPolars (p : PathModel) (outputDir : String) (cfg : RuntimeConfig)
    (o : PolarsOracle) : ConversionStats :=
  match resolveFileOptions p cfg with
  | Except.error e =>
    { input_file := p.full, output_file := outputDir ++ "/" ++ p.name ++ ".parquet",
      rows_processed := 0, rows_converted := 0, errors := [e], warnings := [],
      column_stats := [] }
  | Except.ok _ =>
    match streamPolarsConversion (o.scanSink (analyzeSampleWithPolars o.sampleRead)) with
    | (false, _) =>
      { input_file := p.full, output_file := outputDir ++ "/" ++ p.name ++ ".parquet",
        rows_processed := 0, rows_converted := 0,
        errors := ["Conversion failed during streaming stage."],
        warnings := [], column_stats := [] }
    | (true, totalRows) =>
      { input_file := p.full, output_file := outputDir ++ "/" ++ p.name ++ ".parquet",
        rows_processed := totalRows, rows_converted := totalRows, errors := [],
        warnings := [],
        column_stats := collectPolarsColumnStats o.outColumns cfg.profiling_column_limit }

/-- parse_file dispatch (parser.py lines 44-59): the extension is
checked before any read happens, and an unsupported extension raises
ValueError immediately. -/
def parseFileModel (p : PathModel) (readFrame : Except String PandasFrame) :
    Except String PandasFrame :=
  if strLower p.suffix = ".csv" then readFrame
  else if strLower p.suffix = ".txt" then readFrame
  else Except.error ("Unsupported file type: " ++ strLower p.suffix)

/-- _convert_with_pandas (converter.py lines 263-342): a single except
block turns any parse or write exception into one error entry with
zero row counts. -/
def convertWithPandas (p : PathModel) (outputDir : String) (o : PandasOracle) :
    ConversionStats :=
  match parseFileModel p o.readFrame with
  | Except.error e =>
    { input_file := p.full, output_file := outputDir ++ "/" ++ p.name ++ ".parquet",
      rows_processed := 0, rows_converted := 0, errors := [e], warnings := [],
      column_stats := [] }
  | Except.ok df =>
    match o.writeOk with
    | Except.error e =>
      { input_file := p.full, output_file := outputDir ++ "/" ++ p.name ++ ".parquet",
        rows_processed := 0, rows_converted := 0, errors := [e], warnings := [],
        column_stats := [] }
    | Except.ok _ =>
      { input_file := p.full, output_file := outputDir ++ "/" ++ p.name ++ ".parquet",
        rows_processed := df.nrows, rows_converted := df.nrows, errors := [],
        warnings := [], column_stats := df.columnStats }

/-- convert_file (converter.py lines 26-87): engine dispatch after the
defaults merge. -/
def convertFile (p : PathModel) (outputDir : String) (cfg : RuntimeConfig)
    (po : PolarsOracle) (pa : PandasOracle) : ConversionStats :=
  if strLower cfg.engine = "pandas" then convertWithPandas p outputDir pa
  else convertWithPolars p outputDir cfg po

/-- convert_directory (converter.py lines 90-157): files are
discovered by globbing the csv extension and then the txt extension,
and every discovered file is converted independently in order. -/
def convertDirectory (files : List PathModel) (outputDir : String) (cfg : RuntimeConfig)
    (po : PathModel → PolarsOracle) (pa : PathModel → PandasOracle) :
    List ConversionStats :=
  (files.filter (fun f => strEndsWith f.name ".csv")
      ++ files.filter (fun f => strEndsWith f.name ".txt")).map
    (fun f => convertFile f outputDir cfg (po f) (pa f))

/-- Default runtime configuration used to instantiate witnesses. -/
def demoConfig : RuntimeConfig :=
  { engine := "polars"
    profiling_column_limit := 25
    csv := { delimiter := ",", encoding := "utf-8", naValues := ["", "NA", "NULL"] }
    txt := { delimiter := "\t", encoding := "utf-8", naValues := ["", "NA", "NULL"] } }

/-- Sample csv input path. -/
def demoCsvPath : PathModel := { full := "data/a.csv", name := "a.csv", suffix := ".csv" }

/-- Sample unsupported input path. -/
def demoBinPath : PathModel := { full := "data/a.bin", name := "a.bin", suffix := ".bin" }

/-- Polars oracle whose scan-and-sink step raises. -/
def demoStreamFailOracle : PolarsOracle :=
  { sampleRead := Except.ok [("id", "Int64")]
    scanSink := fun _ => Except.error "io error"
    outColumns := [] }

/-- Polars oracle whose sampling step raises but whose streaming pass
succeeds with two rows. -/
def demoSampleFailOracle : PolarsOracle :=
  { sampleRead := Except.error "encoding error"
    scanSink := fun _ => Except.ok 2
    outColumns := [OutColumn.mk "id" "Int64" 2 0] }

/-- Pandas oracle that reads a two-row frame and writes successfully. -/
def demoPandasOracle : PandasOracle :=
  { readFrame := Except.ok { nrows := 2, columnStats := [] }
    writeOk := Except.ok () }

/-- Three profiled output columns used to instantiate witnesses. -/
def demoCols : List OutColumn :=
  [OutColumn.mk "a" "Int64" 3 0, OutColumn.mk "b" "String" 2 1, OutColumn.mk "c" "Float64" 3 0]

/-! Helper lemmas about lists of characters and decimal digits. -/

theorem takeWhile_eq_self_of_all {α : Type} {p : α → Bool} {l : List α}
    (h : ∀ a ∈ l, p a = true) : l.takeWhile p = l := by
  induction l with
  | nil => rfl
  | cons a t ih =>
    rw [List.takeWhile_cons, if_pos (h a (List.mem_cons_self a t))]
    rw [ih (fun b hb => h b (List.mem_cons_of_mem a hb))]

theorem dropWhile_eq_nil_of_all {α : Type} {p : α → Bool} {l : List α}
    (h : ∀ a ∈ l, p a = true) : l.dropWhile p = [] := by
  induction l with
  | nil => rfl
  | cons a t ih =>
    rw [List.dropWhile_cons, if_pos (h a (List.mem_cons_self a t))]
    exact ih (fun b hb => h b (List.mem_cons_of_mem a hb))

theorem isDigit_ne_dot {c : Char} (h : c.isDigit = true) : c ≠ '.' := by
  intro hc
  subst hc
  exact absurd h (by decide)

theorem isDigit_ne_dash {c : Char} (h : c.isDigit = true) : c ≠ '-' := by
  intro hc
  subst hc
  exact absurd h (by decide)

theorem digitChar_isDigit {d : Nat} (h : d < 10) : (Nat.digitChar d).isDigit = true := by
  interval_cases d <;> decide

theorem digitChar_toNat {d : Nat} (h : d < 10) : (Nat.digitChar d).toNat - 48 = d := by
  interval_cases d <;> decide

theorem foldl_rev_ofDigits (l : List Nat) (a : Nat) :
    l.reverse.foldl (fun acc d => acc * 10 + d) a = a * 10 ^ l.length + Nat.ofDigits 10 l := by
  induction l generalizing a with
  | nil => simp
  | cons d t ih =>
    rw [List.reverse_cons, List.foldl_append, ih]
    simp only [List.foldl_cons, List.foldl_nil, Nat.ofDigits_cons, List.length_cons, pow_succ]
    ring

theorem foldl_digitChars (l : List Nat) (a : Nat) (h : ∀ d ∈ l, d < 10) :
    (l.map Nat.digitChar).foldl (fun acc c => acc * 10 + (c.toNat - 48)) a
      = l.foldl (fun acc d => acc * 10 + d) a := by
  induction l generalizing a with
  | nil => rfl
  | cons d t ih =>
    simp only [List.map_cons, List.foldl_cons]
    rw [digitChar_toNat (h d (List.mem_cons_self d t))]
    exact ih _ (fun e he => h e (List.mem_cons_of_mem d he))

theorem natOfDigitChars_decimal (n : Nat) : natOfDigitChars (natDecimalChars n) = n := by
  unfold natDecimalChars
  by_cases h0 : n = 0
  · subst h0
    decide
  · rw [if_neg h0]
    unfold natOfDigitChars
    rw [← List.map_reverse,
      foldl_digitChars _ _ (fun d hd => Nat.digits_lt_base (by norm_num) (List.mem_reverse.mp hd)),
      foldl_rev_ofDigits]
    simp [Nat.ofDigits_digits]

theorem natDecimalChars_all_digit (n : Nat) : ∀ c ∈ natDecimalChars n, c.isDigit = true := by
  intro c hc
  unfold natDecimalChars at hc
  by_cases h0 : n = 0
  · rw [if_pos h0] at hc
    simp only [List.mem_singleton] at hc
    subst hc
    decide
  · rw [if_neg h0] at hc
    rw [List.mem_reverse, List.mem_map] at hc
    obtain ⟨d, hd, rfl⟩ := hc
    exact digitChar_isDigit (Nat.digits_lt_base (by norm_num) hd)

theorem natDecimalChars_ne_nil (n : Nat) : natDecimalChars n ≠ [] := by
  unfold natDecimalChars
  by_cases h0 : n = 0
  · rw [if_pos h0]
    simp
  · rw [if_neg h0]
    simp [Nat.digits_ne_nil_iff_ne_zero, h0]

theorem toNumericBody_digits {l : List Char} (neg : Bool) (hne : l ≠ [])
    (hd : ∀ c ∈ l, c.isDigit = true) :
    toNumericBody neg l = int64Envelope (signedVal neg (natOfDigitChars l)) := by
  unfold toNumericBody
  have ht : l.takeWhile (fun c => decide (c ≠ '.')) = l :=
    takeWhile_eq_self_of_all (fun c hc => by simp [isDigit_ne_dot (hd c hc)])
  have hr : l.dropWhile (fun c => decide (c ≠ '.')) = [] :=
    dropWhile_eq_nil_of_all (fun c hc => by simp [isDigit_ne_dot (hd c hc)])
  rw [ht, hr]
  unfold toNumericSplit
  have h1 : l.isEmpty = false := by
    cases l with
    | nil => exact absurd rfl hne
    | cons a t => rfl
  rw [h1, List.all_eq_true.mpr hd]
  rfl

theorem int64Wrap_eq_self {z : Int} (hlo : int64Min ≤ z) (hhi : z ≤ int64Max) :
    int64Wrap z = z := by
  unfold int64Min at hlo
  unfold int64Max at hhi
  unfold int64Wrap
  omega

theorem toNumericChars_intLit {cs : List Char} (h : matchesIntLitChars cs = true)
    (hlo : int64Min ≤ intLitValChars cs) (hhi : intLitValChars cs ≤ uint64Max) :
    toNumericChars cs = some ((intLitValChars cs : Int) : Rat) := by
  cases cs with
  | nil => exact absurd h (by decide)
  | cons c t =>
    simp only [matchesIntLitChars] at h
    simp only [intLitValChars] at hlo hhi
    simp only [toNumericChars, intLitValChars]
    by_cases hc : c = '-'
    · rw [if_pos hc] at h hlo hhi
      simp only [Bool.and_eq_true, Bool.not_eq_true'] at h
      obtain ⟨hne, hdig⟩ := h
      have hnil : t ≠ [] := by
        intro hn
        rw [hn] at hne
        simp at hne
      rw [if_pos hc, toNumericBody_digits true hnil (List.all_eq_true.mp hdig), if_pos hc]
      unfold int64Envelope
      rw [if_pos ⟨hlo, hhi⟩]
      rfl
    · rw [if_neg hc] at h hlo hhi
      rw [if_neg hc, toNumericBody_digits false (by simp) (List.all_eq_true.mp h), if_neg hc]
      unfold int64Envelope
      rw [if_pos ⟨hlo, hhi⟩]
      rfl

theorem toNumeric_intLit {s : String} (h : matchesIntLit s = true)
    (hlo : int64Min ≤ intLitVal s) (hhi : intLitVal s ≤ uint64Max) :
    toNumericModel s = some ((intLitVal s : Int) : Rat) :=
  toNumericChars_intLit h hlo hhi

theorem matchesIntLitChars_digits {cs : List Char} (hne : cs ≠ [])
    (hd : ∀ c ∈ cs, c.isDigit = true) : matchesIntLitChars cs = true := by
  cases cs with
  | nil => exact absurd rfl hne
  | cons c t =>
    simp only [matchesIntLitChars]
    rw [if_neg (isDigit_ne_dash (hd c (List.mem_cons_self c t)))]
    exact List.all_eq_true.mpr hd

theorem matchesIntLit_intRender (z : Int) : matchesIntLit (intRender z) = true := by
  cases z with
  | ofNat n =>
    show matchesIntLitChars (natDecimalChars n) = true
    exact matchesIntLitChars_digits (natDecimalChars_ne_nil n) (natDecimalChars_all_digit n)
  | negSucc m =>
    show matchesIntLitChars ('-' :: natDecimalChars (m + 1)) = true
    simp only [matchesIntLitChars, if_pos rfl]
    rw [List.all_eq_true.mpr (natDecimalChars_all_digit (m + 1))]
    have h1 : (natDecimalChars (m + 1)).isEmpty = false := by
      cases hcs : natDecimalChars (m + 1) with
      | nil => exact absurd hcs (natDecimalChars_ne_nil (m + 1))
      | cons a t => rfl
    rw [h1]
    rfl

theorem intLitVal_intRender (z : Int) : intLitVal (intRender z) = z := by
  cases z with
  | ofNat n =>
    show intLitValChars (natDecimalChars n) = Int.ofNat n
    cases hcs : natDecimalChars n with
    | nil => exact absurd hcs (natDecimalChars_ne_nil n)
    | cons c t =>
      have hmem : c ∈ natDecimalChars n := by
        rw [hcs]
        exact List.mem_cons_self c t
      simp only [intLitValChars]
      rw [if_neg (isDigit_ne_dash (natDecimalChars_all_digit n c hmem)), ← hcs,
        natOfDigitChars_decimal n]
      rfl
  | negSucc m =>
    show intLitValChars ('-' :: natDecimalChars (m + 1)) = Int.negSucc m
    simp only [intLitValChars, if_pos rfl]
    rw [natOfDigitChars_decimal (m + 1)]
    simp [Int.negSucc_eq]

/-! Helper lemmas about the stages of the type resolver. -/

theorem ratTrunc_intCast (z : Int) : ratTrunc ((z : Int) : Rat) = z := by
  unfold ratTrunc
  rw [Rat.num_intCast, Rat.den_intCast]
  simp

theorem zip_map_self {α β : Type} (f : α → β) :
    ∀ l : List α, l.zip (l.map f) = l.map (fun a => (a, f a))
  | [] => rfl
  | a :: t => by
    simp only [List.map_cons, List.zip_cons_cons, zip_map_self f t]

theorem formatLoop_inr {o : DtOracle} {formats : List String} {c col : List (Option String)}
    (h : formatLoop o formats c = Sum.inr col) : col = c := by
  unfold formatLoop at h
  cases hfind : formats.find?
      (fun fmt => !((c.map (fun v => v.bind (o.fparse fmt))).all Option.isNone)) with
  | none =>
    rw [hfind] at h
    cases h
    rfl
  | some fmt =>
    rw [hfind] at h
    cases h

theorem formatLoop_none {o : DtOracle} {formats : List String} {c : List (Option String)}
    (hf : ∀ fmt s, o.fparse fmt s = none) : formatLoop o formats c = Sum.inr c := by
  unfold formatLoop
  have hfind : formats.find?
      (fun fmt => !((c.map (fun v => v.bind (o.fparse fmt))).all Option.isNone)) = none := by
    rw [List.find?_eq_none]
    intro fmt _
    have hX : (c.map (fun v => v.bind (o.fparse fmt))).all Option.isNone = true := by
      rw [List.all_eq_true]
      intro x hx
      rw [List.mem_map] at hx
      obtain ⟨v, hv, rfl⟩ := hx
      cases v with
      | none => rfl
      | some s => simp [hf]
    simp [hX]
  rw [hfind]

theorem dtStage_inr_cases {o : DtOracle} {formats : List String}
    {vals col : List (Option String)} (h : dtStage o formats vals = Sum.inr col) :
    col = vals ∨ col = vals.map (fun _ => none) := by
  unfold dtStage at h
  split at h
  · cases h
    exact Or.inl rfl
  · split at h
    · exact Or.inl (formatLoop_inr h)
    · split at h
      · exact Or.inr (formatLoop_inr h)
      · cases h

theorem numericStage_types {c : List (Option String)} {r : InferredType × List Cell}
    (h : numericStage c = some r) :
    r.1 = InferredType.integer ∨ r.1 = InferredType.float := by
  unfold numericStage numericDecide at h
  split at h
  · split at h
    · cases h
      exact Or.inl rfl
    · cases h
      exact Or.inr rfl
  · cases h

theorem numericStage_allNone (vals : List (Option String)) :
    numericStage (vals.map (fun _ => none))
      = some (InferredType.integer, vals.map (fun _ => Cell.null)) := by
  unfold numericStage numericDecide
  have hnum : (vals.map (fun _ => (none : Option String))).map (fun v => v.bind toNumericModel)
      = vals.map (fun _ => (none : Option Rat)) := by
    rw [List.map_map]
    rfl
  rw [hnum]
  have hc1 : ((vals.map (fun _ => (none : Option String))).zip
      (vals.map (fun _ => (none : Option Rat)))).all (fun p => p.1.isNone || p.2.isSome) = true := by
    rw [List.zip_map', List.all_eq_true]
    intro x hx
    rw [List.mem_map] at hx
    obtain ⟨v, hv, rfl⟩ := hx
    rfl
  rw [hc1]
  have hc2 : ((vals.map (fun _ => (none : Option Rat))).filterMap id).all
      (fun q => decide ((int64Wrap (ratTrunc q) : Rat) = q)) = true := by
    rw [List.all_eq_true]
    intro q hq
    rw [List.mem_filterMap] at hq
    obtain ⟨v, hv, hid⟩ := hq
    rw [List.mem_map] at hv
    obtain ⟨w, hw, rfl⟩ := hv
    cases hid
  rw [hc2]
  simp only [if_true, List.map_map]
  rfl

theorem numericStage_intLit {c : List (Option String)}
    (hd : ∀ s, some s ∈ c → matchesIntLit s = true)
    (hrange : ∀ s, some s ∈ c → int64Min ≤ intLitVal s ∧ intLitVal s ≤ int64Max) :
    numericStage c = some (InferredType.integer, c.map intCellOf) := by
  unfold numericStage numericDecide
  have hnum : c.map (fun v => v.bind toNumericModel)
      = c.map (fun v => v.map (fun s => ((intLitVal s : Int) : Rat))) :=
    List.map_congr_left (fun v hv => by
      cases v with
      | none => rfl
      | some s =>
        simp [toNumeric_intLit (hd s hv) (hrange s hv).1
          (le_trans (hrange s hv).2 (by decide))])
  rw [hnum]
  have hc1 : (c.zip (c.map (fun v => v.map (fun s => ((intLitVal s : Int) : Rat))))).all
      (fun p => p.1.isNone || p.2.isSome) = true := by
    rw [zip_map_self, List.all_eq_true]
    intro x hx
    rw [List.mem_map] at hx
    obtain ⟨v, hv, rfl⟩ := hx
    cases v with
    | none => rfl
    | some s => rfl
  rw [hc1]
  have hc2 : ((c.map (fun v => v.map (fun s => ((intLitVal s : Int) : Rat)))).filterMap id).all
      (fun q => decide ((int64Wrap (ratTrunc q) : Rat) = q)) = true := by
    rw [List.all_eq_true]
    intro q hq
    rw [List.mem_filterMap] at hq
    obtain ⟨v, hv, hid⟩ := hq
    rw [List.mem_map] at hv
    obtain ⟨w, hw, rfl⟩ := hv
    cases w with
    | none => cases hid
    | some s =>
      simp only [Option.map_some, id] at hid
      cases hid
      rw [ratTrunc_intCast, int64Wrap_eq_self (hrange s hw).1 (hrange s hw).2]
      simp
  rw [hc2]
  simp only [if_true, List.map_map]
  refine congrArg some (congrArg (Prod.mk InferredType.integer) ?_)
  apply List.map_congr_left
  intro v hv
  cases v with
  | none => rfl
  | some s =>
    show Cell.int (int64Wrap (ratTrunc ((intLitVal s : Int) : Rat))) = Cell.int (intLitVal s)
    rw [ratTrunc_intCast, int64Wrap_eq_self (hrange s hv).1 (hrange s hv).2]

theorem boolStage_none_of_outsider {c : List (Option String)} {s : String}
    (hs : some s ∈ c) (hout : boolTokens.contains (strLower s) = false) :
    boolStage c = none := by
  unfold boolStage
  have hcond : (c.filterMap id).all (fun x => boolTokens.contains (strLower x)) = false := by
    rw [Bool.eq_false_iff]
    intro hall
    rw [List.all_eq_true] at hall
    have hmem : s ∈ c.filterMap id := List.mem_filterMap.mpr ⟨some s, hs, rfl⟩
    have := hall s hmem
    rw [hout] at this
    cases this
  rw [hcond]
  rfl

theorem inferColumn_intLit {o : DtOracle} {formats : List String} {c : List (Option String)}
    (hd : ∀ s, some s ∈ c → matchesIntLit s = true)
    (hrange : ∀ s, some s ∈ c → int64Min ≤ intLitVal s ∧ intLitVal s ≤ int64Max)
    (hin : formats = [] ∨ (o.gRaises = true ∧ ∀ fmt s, o.fparse fmt s = none)) :
    inferDtypesColumn o false formats c = (InferredType.integer, c.map intCellOf) := by
  have hdt : dtStage o formats c = Sum.inr c := by
    unfold dtStage
    rcases hin with h | ⟨hr, hf⟩
    · rw [h]
      rfl
    · by_cases hfe : formats.isEmpty
      · rw [if_pos hfe]
      · rw [if_neg hfe, if_pos (by rw [hr])]
        exact formatLoop_none hf
  unfold inferDtypesColumn
  simp only [Bool.false_eq_true, if_false, hdt, numericStage_intLit hd hrange]

theorem inferDtypesColumn_inl {o : DtOracle} {formats : List String}
    {vals : List (Option String)} {dts : List (Option Nat)}
    (hdt : dtStage o formats vals = Sum.inl dts) :
    inferDtypesColumn o false formats vals
      = (InferredType.dateTime, dts.map (fun t =>
          match t with
          | some d => Cell.dt d
          | none => Cell.null)) := by
  unfold inferDtypesColumn
  rw [if_neg (by simp), hdt]

theorem inferDtypesColumn_inr {o : DtOracle} {formats : List String}
    {vals col : List (Option String)}
    (hdt : dtStage o formats vals = Sum.inr col) :
    inferDtypesColumn o false formats vals
      = (match numericStage col with
        | some r => r
        | none =>
          match boolStage col with
          | some r => r
          | none => (InferredType.string, col.map cellOfRaw)) := by
  unfold inferDtypesColumn
  rw [if_neg (by simp), hdt]

/-! Claim theorems. -/

/-- C1: the claim says the datetime stage accepts only when every
non-null value parses, and that a rejected datetime attempt leaves the
original string values untouched.  The code does neither: with the
default format configured, a column in which one value parses and one
does not is accepted as DateTime, and a column in which nothing parses
is overwritten with nulls by the coerced generic attempt (the revert
at parser.py line 206 restores only the dtype), after which the
numeric stage types the all-null column Int64. -/
theorem c1_datetime_stage_bug :
    (inferDtypesColumn pdOracle false ["%Y-%m-%d"] [some "2023-01-05", some "xyz"]).1
        = InferredType.dateTime
    ∧ inferDtypesColumn pdOracle false ["%Y-%m-%d"] [some "abc", some "def"]
        = (InferredType.integer, [Cell.null, Cell.null]) := by
  decide

/-- C4 counterexample: the string 2023 matches the integer-literal
pattern, yet with the default datetime format configured the generic
datetime attempt parses it as the date 2023-01-01, so the Type
Resolver yields DateTime, not Integer; and an all-digit literal beyond
the uint64 bound never classifies Integer even with the datetime stage
inert, because the 64-bit integer path of pandas.to_numeric cannot
hold its exact value. -/
theorem c4_digit_column_counterexample :
    matchesIntLit "2023" = true
    ∧ (inferDtypesColumn pdOracle false ["%Y-%m-%d"] [some "2023"]).1
        = InferredType.dateTime
    ∧ matchesIntLit "99999999999999999999999999" = true
    ∧ (inferDtypesColumn nullOracle false [] [some "99999999999999999999999999"]).1
        ≠ InferredType.integer := by
  decide

/-- C4 (amended): for every column whose non-null raw values all match
the integer-literal pattern and denote values within the int64 range,
provided the datetime stage passes the column through unchanged (no
datetime formats are configured, or the generic attempt raises and no
configured format parses anything), the Type Resolver yields Integer
with the exact parsed values, and rendering those integers back to
strings and re-resolving yields the same Integer values. -/
theorem c4_integer_column_amended (o : DtOracle) (formats : List String)
    (vals : List (Option String))
    (hd : ∀ s, some s ∈ vals → matchesIntLit s = true)
    (hrange : ∀ s, some s ∈ vals → int64Min ≤ intLitVal s ∧ intLitVal s ≤ int64Max)
    (hin : formats = [] ∨ (o.gRaises = true ∧ ∀ fmt s, o.fparse fmt s = none)) :
    inferDtypesColumn o false formats vals = (InferredType.integer, vals.map intCellOf)
    ∧ inferDtypesColumn o false formats
        (vals.map (fun v => v.map (fun s => intRender (intLitVal s))))
        = (InferredType.integer, vals.map intCellOf) := by
  constructor
  · exact inferColumn_intLit hd hrange hin
  · have hd2 : ∀ s, some s ∈ vals.map (fun v => v.map (fun x => intRender (intLitVal x))) →
        matchesIntLit s = true := by
      intro s hs
      rw [List.mem_map] at hs
      obtain ⟨v, hv, hveq⟩ := hs
      cases v with
      | none => cases hveq
      | some s0 =>
        have hveq2 : intRender (intLitVal s0) = s := Option.some.inj hveq
        rw [← hveq2]
        exact matchesIntLit_intRender (intLitVal s0)
    have hrange2 : ∀ s, some s ∈ vals.map (fun v => v.map (fun x => intRender (intLitVal x))) →
        int64Min ≤ intLitVal s ∧ intLitVal s ≤ int64Max := by
      intro s hs
      rw [List.mem_map] at hs
      obtain ⟨v, hv, hveq⟩ := hs
      cases v with
      | none => cases hveq
      | some s0 =>
        have hveq2 : intRender (intLitVal s0) = s := Option.some.inj hveq
        rw [← hveq2, intLitVal_intRender]
        exact hrange s0 hv
    rw [inferColumn_intLit hd2 hrange2 hin]
    refine congrArg (Prod.mk InferredType.integer) ?_
    rw [List.map_map]
    apply List.map_congr_left
    intro v hv
    cases v with
    | none => rfl
    | some s =>
      show Cell.int (intLitVal (intRender (intLitVal s))) = Cell.int (intLitVal s)
      rw [intLitVal_intRender]

/-- Witness for C4 (amended) at a concrete three-entry column. -/
theorem c4_integer_column_amended_witness :
    inferDtypesColumn nullOracle false [] [some "7", none, some "-12"]
        = (InferredType.integer, [Cell.int 7, Cell.null, Cell.int (-12)])
    ∧ inferDtypesColumn nullOracle false []
        ([some "7", none, some "-12"].map (fun v => v.map (fun s => intRender (intLitVal s))))
        = (InferredType.integer, [Cell.int 7, Cell.null, Cell.int (-12)]) := by
  have h := c4_integer_column_amended nullOracle [] [some "7", none, some "-12"]
    (by
      intro s hs
      simp at hs
      rcases hs with h1 | h1 <;> subst h1 <;> decide)
    (by
      intro s hs
      simp at hs
      rcases hs with h1 | h1 <;> subst h1 <;> exact ⟨by decide, by decide⟩)
    (Or.inl rfl)
  constructor
  · rw [h.1]
    decide
  · rw [h.2]
    decide

/-- C5: a column containing a non-null value outside the boolean token
set is never resolved Boolean; and a column whose values all lie in
the set of the strings 1 and 0 resolves numeric (Integer), never
Boolean, whenever the datetime stage has not claimed it, because the
numeric attempt precedes the boolean attempt. -/
theorem c5_boolean_token_gate :
    (∀ (o : DtOracle) (formats : List String) (vals : List (Option String)) (s : String),
        some s ∈ vals → boolTokens.contains (strLower s) = false →
        (inferDtypesColumn o false formats vals).1 ≠ InferredType.boolean)
    ∧ (∀ (o : DtOracle) (formats : List String) (vals : List (Option String)),
        (∀ s, some s ∈ vals → s = "1" ∨ s = "0") →
        (inferDtypesColumn o false formats vals).1 ≠ InferredType.dateTime →
        (inferDtypesColumn o false formats vals).1 = InferredType.integer) := by
  constructor
  · intro o formats vals s hs hout
    cases hdt : dtStage o formats vals with
    | inl dts =>
      rw [inferDtypesColumn_inl hdt]
      exact fun h => nomatch h
    | inr col =>
      rw [inferDtypesColumn_inr hdt]
      rcases dtStage_inr_cases hdt with hcol | hcol
      · rw [hcol]
        cases hns : numericStage vals with
        | some r =>
          show ¬r.1 = InferredType.boolean
          rcases numericStage_types hns with h1 | h1 <;> rw [h1] <;> decide
        | none =>
          rw [boolStage_none_of_outsider hs hout]
          exact fun h => nomatch h
      · rw [hcol, numericStage_allNone]
        exact fun h => nomatch h
  · intro o formats vals hvals hneq
    cases hdt : dtStage o formats vals with
    | inl dts =>
      exact absurd (by rw [inferDtypesColumn_inl hdt]) hneq
    | inr col =>
      rw [inferDtypesColumn_inr hdt]
      rcases dtStage_inr_cases hdt with hcol | hcol
      · rw [hcol]
        have hd : ∀ x, some x ∈ vals → matchesIntLit x = true := by
          intro x hxv
          rcases hvals x hxv with h1 | h1 <;> subst h1 <;> decide
        have hr : ∀ x, some x ∈ vals → int64Min ≤ intLitVal x ∧ intLitVal x ≤ int64Max := by
          intro x hxv
          rcases hvals x hxv with h1 | h1 <;> subst h1 <;> exact ⟨by decide, by decide⟩
        rw [numericStage_intLit hd hr]
      · rw [hcol, numericStage_allNone]

/-- Witness for C5 at concrete columns. -/
theorem c5_boolean_token_gate_witness :
    (inferDtypesColumn nullOracle false [] [some "yes"]).1 ≠ InferredType.boolean
    ∧ (inferDtypesColumn nullOracle false [] [some "1", some "0"]).1
        = InferredType.integer := by
  constructor
  · exact c5_boolean_token_gate.1 nullOracle [] [some "yes"] "yes" (by simp) (by decide)
  · exact c5_boolean_token_gate.2 nullOracle [] [some "1", some "0"]
      (by
        intro s hs
        simp at hs
        exact hs)
      (by decide)

/-- C6: the null tokens are indeed substituted before inference, but
on the failing input the claimed outcome does not hold: with the
default datetime format configured, the generic datetime attempt
coerces the surviving strings 1 and 3 to NaT, its rejection keeps the
nulls, and the numeric stage types the column Int64 with all three
values null rather than one. -/
theorem c6_null_token_scenario_bug :
    applyNaValues ["NA"] ["1", "NA", "3"] = [some "1", none, some "3"]
    ∧ inferDtypesColumn pdOracle false ["%Y-%m-%d"] (applyNaValues ["NA"] ["1", "NA", "3"])
        = (InferredType.integer, [Cell.null, Cell.null, Cell.null]) := by
  decide


/-! Converter pipeline helper lemmas. -/

theorem resolveFileOptions_ok (p : PathModel) (cfg : RuntimeConfig)
    (h : strLower p.suffix = ".csv" ∨ strLower p.suffix = ".txt") :
    resolveFileOptions p cfg = Except.ok cfg.csv ∨ resolveFileOptions p cfg = Except.ok cfg.txt := by
  unfold resolveFileOptions
  rcases h with h | h
  · left
    rw [h, if_pos rfl]
  · right
    rw [h, if_neg (by decide), if_pos rfl]

theorem convertFile_polars (p : PathModel) (outputDir : String) (cfg : RuntimeConfig)
    (po : PolarsOracle) (pa : PandasOracle) (heng : strLower cfg.engine ≠ "pandas") :
    convertFile p outputDir cfg po pa = convertWithPolars p outputDir cfg po := by
  unfold convertFile
  rw [if_neg heng]

theorem convertWithPolars_stream (p : PathModel) (outputDir : String) (cfg : RuntimeConfig)
    (o : PolarsOracle) (opts : FileOptions)
    (hro : resolveFileOptions p cfg = Except.ok opts) :
    convertWithPolars p outputDir cfg o
      = (match streamPolarsConversion (o.scanSink (analyzeSampleWithPolars o.sampleRead)) with
        | (false, _) =>
          { input_file := p.full, output_file := outputDir ++ "/" ++ p.name ++ ".parquet",
            rows_processed := 0, rows_converted := 0,
            errors := ["Conversion failed during streaming stage."],
            warnings := [], column_stats := [] }
        | (true, totalRows) =>
          { input_file := p.full, output_file := outputDir ++ "/" ++ p.name ++ ".parquet",
            rows_processed := totalRows, rows_converted := totalRows, errors := [],
            warnings := [],
            column_stats := collectPolarsColumnStats o.outColumns cfg.profiling_column_limit }) := by
  unfold convertWithPolars
  rw [hro]

/-! Converter claim theorems. -/

/-- C2: when the streaming stage fails, _stream_polars_conversion
returns success false with zero rows, and the Conversion Outcome for
the file carries exactly the single streaming-stage error with both
row counters zero. -/
theorem c2_streaming_failure_single_error (p : PathModel) (outputDir : String)
    (cfg : RuntimeConfig) (po : PolarsOracle) (pa : PandasOracle) (msg : String)
    (hsupp : strLower p.suffix = ".csv" ∨ strLower p.suffix = ".txt")
    (heng : strLower cfg.engine ≠ "pandas")
    (hfail : po.scanSink (analyzeSampleWithPolars po.sampleRead) = Except.error msg) :
    streamPolarsConversion (Except.error msg) = (false, 0)
    ∧ convertFile p outputDir cfg po pa
      = { input_file := p.full, output_file := outputDir ++ "/" ++ p.name ++ ".parquet",
          rows_processed := 0, rows_converted := 0,
          errors := ["Conversion failed during streaming stage."],
          warnings := [], column_stats := [] } := by
  refine ⟨rfl, ?_⟩
  rw [convertFile_polars p outputDir cfg po pa heng]
  rcases resolveFileOptions_ok p cfg hsupp with hro | hro <;>
    rw [convertWithPolars_stream p outputDir cfg po _ hro, hfail] <;> rfl

/-- Witness for C2 at a concrete csv path and failing stream oracle. -/
theorem c2_streaming_failure_single_error_witness :
    convertFile demoCsvPath "out" demoConfig demoStreamFailOracle demoPandasOracle
      = { input_file := demoCsvPath.full,
          output_file := "out" ++ "/" ++ demoCsvPath.name ++ ".parquet",
          rows_processed := 0, rows_converted := 0,
          errors := ["Conversion failed during streaming stage."],
          warnings := [], column_stats := [] } :=
  (c2_streaming_failure_single_error demoCsvPath "out" demoConfig demoStreamFailOracle
    demoPandasOracle "io error" (Or.inl (by decide)) (by decide) rfl).2

/-- C3: an input whose lowered extension is neither csv nor txt yields
a Conversion Outcome holding exactly one Unsupported-file-type error
with zero rows, on either engine; the result does not depend on the
parsing oracles (nothing is parsed), and a file whose name matches
neither glob leaves the rest of a directory batch unchanged. -/
theorem c3_unsupported_extension (p : PathModel) (outputDir : String) (cfg : RuntimeConfig)
    (po : PolarsOracle) (pa : PandasOracle)
    (h1 : strLower p.suffix ≠ ".csv") (h2 : strLower p.suffix ≠ ".txt") :
    convertFile p outputDir cfg po pa
      = { input_file := p.full, output_file := outputDir ++ "/" ++ p.name ++ ".parquet",
          rows_processed := 0, rows_converted := 0,
          errors := ["Unsupported file type: " ++ strLower p.suffix],
          warnings := [], column_stats := [] }
    ∧ (∀ (po2 : PolarsOracle) (pa2 : PandasOracle),
        convertFile p outputDir cfg po2 pa2 = convertFile p outputDir cfg po pa)
    ∧ (∀ (fs1 fs2 : List PathModel) (po2 : PathModel → PolarsOracle)
          (pa2 : PathModel → PandasOracle),
        strEndsWith p.name ".csv" = false → strEndsWith p.name ".txt" = false →
        convertDirectory (fs1 ++ p :: fs2) outputDir cfg po2 pa2
          = convertDirectory (fs1 ++ fs2) outputDir cfg po2 pa2) := by
  have key : ∀ (po3 : PolarsOracle) (pa3 : PandasOracle),
      convertFile p outputDir cfg po3 pa3
        = { input_file := p.full, output_file := outputDir ++ "/" ++ p.name ++ ".parquet",
            rows_processed := 0, rows_converted := 0,
            errors := ["Unsupported file type: " ++ strLower p.suffix],
            warnings := [], column_stats := [] } := by
    intro po3 pa3
    unfold convertFile
    split
    · unfold convertWithPandas parseFileModel
      rw [if_neg h1, if_neg h2]
    · unfold convertWithPolars resolveFileOptions
      rw [if_neg h1, if_neg h2]
  refine ⟨key po pa, fun po2 pa2 => (key po2 pa2).trans (key po pa).symm, ?_⟩
  intro fs1 fs2 po2 pa2 hcsv htxt
  unfold convertDirectory
  rw [List.filter_append, List.filter_append, List.filter_cons, List.filter_cons,
    hcsv, htxt]
  simp

/-- Witness for C3 at a concrete .bin path. -/
theorem c3_unsupported_extension_witness :
    convertFile demoBinPath "out" demoConfig demoStreamFailOracle demoPandasOracle
      = { input_file := demoBinPath.full,
          output_file := "out" ++ "/" ++ demoBinPath.name ++ ".parquet",
          rows_processed := 0, rows_converted := 0,
          errors := ["Unsupported file type: " ++ strLower demoBinPath.suffix],
          warnings := [], column_stats := [] }
    ∧ convertDirectory ([] ++ demoBinPath :: []) "out" demoConfig
        (fun _ => demoStreamFailOracle) (fun _ => demoPandasOracle)
      = convertDirectory ([] ++ []) "out" demoConfig
        (fun _ => demoStreamFailOracle) (fun _ => demoPandasOracle) := by
  have h := c3_unsupported_extension demoBinPath "out" demoConfig demoStreamFailOracle
    demoPandasOracle (by decide) (by decide)
  exact ⟨h.1, h.2.2 [] [] _ _ (by decide) (by decide)⟩

/-- C7: a sampling failure makes the Schema Sampler return none rather
than raising or recording anything, and the streaming pass still runs
with no schema hint; when it succeeds the outcome is fully successful
with its row count, so a sampling failure alone never fails the file. -/
theorem c7_sampling_soft_fail (p : PathModel) (outputDir : String) (cfg : RuntimeConfig)
    (po : PolarsOracle) (pa : PandasOracle) (msg : String) (n : Nat)
    (hsupp : strLower p.suffix = ".csv" ∨ strLower p.suffix = ".txt")
    (heng : strLower cfg.engine ≠ "pandas")
    (hsample : po.sampleRead = Except.error msg)
    (hstream : po.scanSink none = Except.ok n) :
    analyzeSampleWithPolars po.sampleRead = none
    ∧ (convertFile p outputDir cfg po pa).success = true
    ∧ (convertFile p outputDir cfg po pa).errors = []
    ∧ (convertFile p outputDir cfg po pa).warnings = []
    ∧ (convertFile p outputDir cfg po pa).rows_processed = n := by
  have hana : analyzeSampleWithPolars po.sampleRead = none := by
    rw [hsample]
    rfl
  have hcf : convertFile p outputDir cfg po pa
      = { input_file := p.full, output_file := outputDir ++ "/" ++ p.name ++ ".parquet",
          rows_processed := n, rows_converted := n, errors := [], warnings := [],
          column_stats := collectPolarsColumnStats po.outColumns cfg.profiling_column_limit } := by
    rw [convertFile_polars p outputDir cfg po pa heng]
    rcases resolveFileOptions_ok p cfg hsupp with hro | hro <;>
      rw [convertWithPolars_stream p outputDir cfg po _ hro, hana, hstream] <;> rfl
  exact ⟨hana, by rw [hcf]; rfl, by rw [hcf], by rw [hcf], by rw [hcf]⟩

/-- Witness for C7 at a concrete csv path whose sampling fails and
whose streaming pass writes two rows. -/
theorem c7_sampling_soft_fail_witness :
    analyzeSampleWithPolars demoSampleFailOracle.sampleRead = none
    ∧ (convertFile demoCsvPath "out" demoConfig demoSampleFailOracle demoPandasOracle).success
        = true
    ∧ (convertFile demoCsvPath "out" demoConfig demoSampleFailOracle
        demoPandasOracle).rows_processed = 2 := by
  have h := c7_sampling_soft_fail demoCsvPath "out" demoConfig demoSampleFailOracle
    demoPandasOracle "encoding error" 2 (Or.inl (by decide)) (by decide) rfl rfl
  exact ⟨h.1, h.2.1, h.2.2.2.2⟩

/-- C9: every Conversion Outcome produced by convert_file has equal
rows_processed and rows_converted, on both engines and on every
success or failure path. -/
theorem c9_rows_processed_eq_converted (p : PathModel) (outputDir : String)
    (cfg : RuntimeConfig) (po : PolarsOracle) (pa : PandasOracle) :
    (convertFile p outputDir cfg po pa).rows_processed
      = (convertFile p outputDir cfg po pa).rows_converted := by
  unfold convertFile
  split
  · unfold convertWithPandas
    split
    · rfl
    · split
      · rfl
      · rfl
  · unfold convertWithPolars
    split
    · rfl
    · split
      · rfl
      · rfl

/-- C10: serialization of a Conversion Outcome round-trips through
to_dict and from_dict, every field restored, with the derived success,
error_count and warning_count entries ignored on the way back. -/
theorem c10_stats_roundtrip (s : ConversionStats) :
    ConversionStats.from_dict (ConversionStats.to_dict s) = s := by
  cases s
  rfl


/-- C8: the profiling map has exactly one entry per output column, in
schema order; the first min(k, n) columns carry computed unique-value
and null counts, and every column beyond the limit carries its dtype
with null placeholders. -/
theorem c8_profiling_map_shape (cols : List OutColumn) (k : Nat) :
    (collectPolarsColumnStats cols k).map Prod.fst = cols.map OutColumn.name
    ∧ (collectPolarsColumnStats cols k).length = cols.length
    ∧ (∀ i, i < min k cols.length →
        (collectPolarsColumnStats cols k)[i]? = (cols[i]?).map (fun c =>
          (c.name, ColumnInfo.mk c.dtype (some c.nUnique) (some c.nullCount))))
    ∧ (∀ i, min k cols.length ≤ i →
        (collectPolarsColumnStats cols k)[i]? = (cols[i]?).map (fun c =>
          (c.name, ColumnInfo.mk c.dtype none none))) := by
  refine ⟨?_, ?_, ?_, ?_⟩
  · unfold collectPolarsColumnStats
    have h1 : (Prod.fst ∘ fun c : OutColumn =>
        (c.name, ColumnInfo.mk c.dtype (some c.nUnique) (some c.nullCount)))
        = OutColumn.name := rfl
    have h2 : (Prod.fst ∘ fun c : OutColumn => (c.name, ColumnInfo.mk c.dtype none none))
        = OutColumn.name := rfl
    rw [List.map_append, List.map_map, List.map_map, h1, h2, ← List.map_append,
      List.take_append_drop]
  · unfold collectPolarsColumnStats
    rw [List.length_append, List.length_map, List.length_map, List.length_take,
      List.length_drop]
    omega
  · intro i hi
    unfold collectPolarsColumnStats
    rw [List.getElem?_append, if_pos (by simp; omega), List.getElem?_map,
      List.getElem?_take, if_pos (by omega)]
  · intro i hi
    unfold collectPolarsColumnStats
    rw [List.getElem?_append_right (by simp; omega)]
    simp only [List.length_map, List.length_take]
    rw [List.getElem?_map, List.getElem?_drop]
    rcases le_or_lt k cols.length with hk | hk
    · have h1 : k + (i - k ⊓ cols.length) = i := by omega
      rw [h1]
    · have h1 : cols[k + (i - k ⊓ cols.length)]? = none := List.getElem?_eq_none (by omega)
      have h2 : cols[i]? = none := List.getElem?_eq_none (by omega)
      rw [h1, h2]

/-- Witness for C8: a three-column output profiled with limit one. -/
theorem c8_profiling_map_shape_witness :
    (collectPolarsColumnStats demoCols 1).map Prod.fst = ["a", "b", "c"]
    ∧ (collectPolarsColumnStats demoCols 1).length = 3
    ∧ (collectPolarsColumnStats demoCols 1)[0]?
        = some ("a", ColumnInfo.mk "Int64" (some 3) (some 0))
    ∧ (collectPolarsColumnStats demoCols 1)[2]?
        = some ("c", ColumnInfo.mk "Float64" none none) := by
  refine ⟨?_, ?_, ?_, ?_⟩
  · rw [(c8_profiling_map_shape demoCols 1).1]
    rfl
  · rw [(c8_profiling_map_shape demoCols 1).2.1]
    rfl
  · rw [(c8_profiling_map_shape demoCols 1).2.2.1 0 (by decide)]
    rfl
  · rw [(c8_profiling_map_shape demoCols 1).2.2.2 2 (by decide)]
    rfl

end PC
